import Mathlib

/-!
Verification model of the Talemo authentication components of this
repository: the blocking auth gate and the sign-out command
(talemoAuth.contribution.ts, plus a historical variant of the same file),
the accounts adapter TalemoAuthenticationProvider, and the login surface
TalemoAuthOverlay.

Storage is modelled as the two persisted fields, token and user.  The
string persisted under the user key is classified by how the JavaScript
JSON.parse treats it (empty, parses to an id/email record, or raises a
SyntaxError), which is exactly the distinction the adapter code observes.
Throwing storage operations are modelled with Except, and each
try/catch of the source is an explicit Except match.
-/

-- DATA MODEL -------------------------------------------------------------

/-- Persisted user record shape: the interface StoredUser of
talemoAuthProvider, the value written by the overlay as the serialized
response user and read back by the adapter. -/
structure StoredUser where
  id : String
  email : String
  deriving DecidableEq

/-- Classification of the string persisted under the user key by how
JSON.parse treats it: the empty string (falsy in JavaScript, so it is
never parsed), a non-empty string that parses to an id/email record, or
a non-empty string that JSON.parse rejects with a SyntaxError (for
example the literal string not-json).  Parsable values of other shapes
are outside the model; no claim concerns them. -/
inductive UserVal where
  | empty : UserVal
  | json : StoredUser → UserVal
  | notJson : String → UserVal
  deriving DecidableEq

/-- Account component of an externally visible session. -/
structure SessionAccount where
  id : String
  label : String
  deriving DecidableEq

/-- External session projection assembled by readSession. -/
structure AuthSession where
  id : String
  accessToken : String
  account : SessionAccount
  scopes : List String
  deriving DecidableEq

/-- The two persisted fields, token and user (storage keys
talemo.auth.accessToken and talemo.auth.user). -/
structure StorageState where
  token : Option String
  user : Option UserVal
  deriving DecidableEq

/-- Sessions-change event fired by the adapter.  The changed member of
the source event is always undefined and is omitted from the model. -/
structure SessionsChangeEvent where
  added : Option (List AuthSession)
  removed : Option (List AuthSession)
  deriving DecidableEq

-- ACCOUNTS ADAPTER (TalemoAuthenticationProvider) -------------------------

/-- Placeholder identity installed by readSession before the user field
is examined (line 263 of the adapter). -/
def placeholderUser : StoredUser := ⟨"unknown", "unknown"⟩

/-- Session object assembled by readSession (lines 268 to 273): id is
talemo- followed by the user id, accessToken is the stored token, the
account carries the user id and email, and the scopes are talemo. -/
def mkSession (t : String) (u : StoredUser) : AuthSession :=
  ⟨"talemo-" ++ u.id, t, ⟨u.id, u.email⟩, ["talemo"]⟩

/-- Transliteration of TalemoAuthenticationProvider.readSession (lines
255 to 278).  A falsy token (absent or empty) yields null.  A falsy user
value (absent or empty string) keeps the placeholder identity.  A user
value rejected by JSON.parse makes the parse throw inside the try block
of readSession, whose catch returns null, so the unparsable branch
yields none rather than a placeholder session. -/
def readSession (st : StorageState) : Option AuthSession :=
  match st.token with
  | none => none
  | some t =>
    if t = "" then
      none
    else
      match st.user with
      | none => some (mkSession t placeholderUser)
      | some UserVal.empty => some (mkSession t placeholderUser)
      | some (UserVal.json u) => some (mkSession t u)
      | some (UserVal.notJson _) => none

/-- getSessions (lines 206 to 217): readSession wrapped into a zero or
one element list; its catch arm returns the empty list, and is
unreachable here because the modelled readSession is total. -/
def getSessions (st : StorageState) : List AuthSession :=
  match readSession st with
  | some s => [s]
  | none => []

/-- Message of the error that createSession raises when no session is
readable: the inner throw of line 231 is caught at line 232 and rethrown
with the prefixed message of line 234. -/
def noSessionMessage : String :=
  "[TalemoAuth] createSession failed: No active Talemo session. Please sign in via the login overlay."

/-- createSession (lines 219 to 236): returns the existing session if
readSession yields one, otherwise throws; the throw is rethrown (not
swallowed) by the surrounding catch.  The body performs no network
request and no storage write. -/
def createSession (st : StorageState) : Except String AuthSession :=
  match readSession st with
  | some s => Except.ok s
  | none => Except.error noSessionMessage

/-- removeSession (lines 238 to 253) on a plain storage state: the
existing session is read before clearing, both fields are removed (token
at line 241, then user at line 242), and a removed event carrying the
pre-read session is fired only when one existed. -/
def removeSession (st : StorageState) : List SessionsChangeEvent × StorageState :=
  match readSession st with
  | some s => ([⟨none, some [s]⟩], ⟨none, none⟩)
  | none => ([], ⟨none, none⟩)

/-- Token-change subscription handler installed by the adapter
constructor (lines 192 to 203): after any change of the token field it
re-reads the session and fires added with it when readSession yields
one, and an event with both members absent otherwise. -/
def tokenChangeHandler (st : StorageState) : SessionsChangeEvent :=
  match readSession st with
  | some s => ⟨some [s], none⟩
  | none => ⟨none, none⟩

-- FALLIBLE STORAGE MODEL --------------------------------------------------

/-- Outcomes of the storage operations performed during one adapter
call; each operation either returns a value or throws. -/
structure StorageBehavior where
  getToken : Except String (Option String)
  getUser : Except String (Option UserVal)
  removeToken : Except String Unit
  removeUser : Except String Unit
  fireRemoved : Except String Unit

/-- Body of the try block of readSession over a fallible storage: a
throwing get propagates, and an unparsable user value makes JSON.parse
throw a SyntaxError. -/
def readSessionE (b : StorageBehavior) : Except String (Option AuthSession) :=
  match b.getToken with
  | Except.error e => Except.error e
  | Except.ok none => Except.ok none
  | Except.ok (some t) =>
    if t = "" then
      Except.ok none
    else
      match b.getUser with
      | Except.error e => Except.error e
      | Except.ok none => Except.ok (some (mkSession t placeholderUser))
      | Except.ok (some UserVal.empty) => Except.ok (some (mkSession t placeholderUser))
      | Except.ok (some (UserVal.json u)) => Except.ok (some (mkSession t u))
      | Except.ok (some (UserVal.notJson _)) => Except.error "SyntaxError raised by JSON.parse"

/-- readSession over a fallible storage: the catch of lines 274 to 277
converts any failure of the try block into null. -/
def readSessionB (b : StorageBehavior) : Option AuthSession :=
  match readSessionE b with
  | Except.ok r => r
  | Except.error _ => none

/-- Canonical non-throwing behavior of a plain storage state. -/
def behaviorOf (st : StorageState) : StorageBehavior :=
  ⟨Except.ok st.token, Except.ok st.user, Except.ok (), Except.ok (), Except.ok ()⟩

/-- Body of the try block of removeSession over a fallible storage:
read-before-clear, then the two removes in source order (token, then
user), then the removed event, whose synchronous subscriber callbacks
may themselves throw. -/
def removeSessionE (b : StorageBehavior) : Except String Unit :=
  let existing := readSessionB b
  match b.removeToken with
  | Except.error e => Except.error e
  | Except.ok _ =>
    match b.removeUser with
    | Except.error e => Except.error e
    | Except.ok _ =>
      match existing with
      | some _ => b.fireRemoved
      | none => Except.ok ()

/-- removeSession as the caller sees it: the catch of lines 250 to 252
logs and swallows every failure of the body, so the returned promise
always resolves. -/
def removeSessionCaught (b : StorageBehavior) : Except String Unit :=
  match removeSessionE b with
  | Except.ok _ => Except.ok ()
  | Except.error _ => Except.ok ()

-- OVERLAY AND GATE (TalemoAuthOverlay, TalemoAuthGate) --------------------

/-- One TalemoAuthOverlay instance: its backdrop reference, holding the
identity of the backdrop element it created, if any. -/
structure OverlayState where
  backdrop : Option Nat
  deriving DecidableEq

/-- The host container: the identities of the backdrop elements
currently appended to it, plus a counter supplying fresh element
identities. -/
structure DomState where
  container : List Nat
  nextId : Nat
  deriving DecidableEq

/-- TalemoAuthOverlay.show (part_001 lines 50 to 59): creates a fresh
backdrop element, stores it in the backdrop reference, and appends it to
the container.  It does not consult the previous backdrop reference, so
an already attached backdrop stays in the container. -/
def overlayShow (dom : DomState) : OverlayState × DomState :=
  (⟨some dom.nextId⟩, ⟨dom.container ++ [dom.nextId], dom.nextId + 1⟩)

/-- TalemoAuthOverlay.hide (part_001 lines 62 to 71): detaches the
referenced backdrop when it is attached and clears the reference. -/
def overlayHide (ov : OverlayState) (dom : DomState) : OverlayState × DomState :=
  match ov.backdrop with
  | some i => (⟨none⟩, ⟨dom.container.filter (fun j => j != i), dom.nextId⟩)
  | none => (⟨none⟩, dom)

/-- The gate: the overlay instances it has constructed and registered. -/
structure GateState where
  overlays : List OverlayState
  deriving DecidableEq

/-- TalemoAuthGate.showLoginOverlay (talemoAuth.contribution.ts lines 72
to 88): constructs a brand new TalemoAuthOverlay, registers it, and
calls show on it.  The method keeps no owned-instance reference and
performs no already-attached check. -/
def showLoginOverlay (g : GateState) (dom : DomState) : GateState × DomState :=
  let od := overlayShow dom
  (⟨g.overlays ++ [od.1]⟩, od.2)

/-- State after invoking the gate show path twice in succession with no
intervening hide, starting from a gate with no overlays and an empty
container. -/
def afterTwoShows : GateState × DomState :=
  let r1 := showLoginOverlay ⟨[]⟩ ⟨[], 0⟩
  showLoginOverlay r1.1 r1.2

-- SIGN-OUT COMMAND --------------------------------------------------------

/-- Observable steps of the talemo.auth.signOut command body. -/
inductive SignOutStep where
  | removeTokenKey : SignOutStep
  | removeUserKey : SignOutStep
  | constructOverlay : SignOutStep
  | showOverlay : SignOutStep
  deriving DecidableEq

/-- The talemo.auth.signOut command of talemoAuth.contribution.ts (lines
126 to 134): removes the user key (line 129), then the token key (line
130), and touches no UI. -/
def signOutCanonical : List SignOutStep :=
  [SignOutStep.removeUserKey, SignOutStep.removeTokenKey]

/-- The historical variant of the signOut command (part_000 lines 114 to
135): removes the token key (line 117), then the user key (line 118),
then constructs a fresh overlay directly and shows it. -/
def signOutVariant : List SignOutStep :=
  [SignOutStep.removeTokenKey, SignOutStep.removeUserKey,
   SignOutStep.constructOverlay, SignOutStep.showOverlay]

-- LOGIN SURFACE (TalemoAuthOverlay.handleLogin) ---------------------------

/-- ASCII whitespace, the fragment of the JavaScript whitespace class
exercised here. -/
def isWs (c : Char) : Bool :=
  c == ' ' || c == '\t' || c == '\n' || c == '\r'

/-- Model of the JavaScript String.prototype.trim, restricted to ASCII
whitespace. -/
def jsTrim (s : String) : String :=
  String.mk (((s.data.dropWhile isWs).reverse.dropWhile isWs).reverse)

/-- Outcome of the remote login exchange: a 2xx response carrying
access_token and user, a non-2xx response (carrying the message already
derived from detail.message, detail, or the generic fallback of line
171), or a thrown network error. -/
inductive LoginResponse where
  | success : String → StoredUser → LoginResponse
  | httpFailure : String → LoginResponse
  | networkFailure : String → LoginResponse
  deriving DecidableEq

/-- Observable steps of one handleLogin invocation.  Button state
changes and hideError are pure transient styling and are omitted. -/
inductive LoginStep where
  | fetchCall : String → String → LoginStep
  | storeUser : StoredUser → LoginStep
  | storeToken : String → LoginStep
  | hideOverlay : LoginStep
  | onAuthenticated : LoginStep
  | showErr : String → LoginStep
  deriving DecidableEq

/-- The literal validation message of line 150. -/
def validationMessage : String := "Please enter your email and password."

/-- TalemoAuthOverlay.handleLogin (part_001 lines 140 to 189) as the
trace of its observable steps.  The email is trimmed (line 146) and the
password is taken as is (line 147); validation rejects only when the
trimmed email or the raw password is empty.  On a 2xx response the user
field is stored (line 177), then the token field (line 178), then the
overlay hides itself and the completion callback runs.  The third
argument records whether the surface was torn down while the exchange
was in flight; the source consults no disposed state after the await, so
the trace does not depend on it. -/
def handleLogin (emailRaw passwordRaw : String) (_disposedDuringFlight : Bool)
    (resp : LoginResponse) : List LoginStep :=
  if jsTrim emailRaw = "" ∨ passwordRaw = "" then
    [LoginStep.showErr validationMessage]
  else
    LoginStep.fetchCall (jsTrim emailRaw) passwordRaw ::
      match resp with
      | LoginResponse.success tok u =>
        [LoginStep.storeUser u, LoginStep.storeToken tok,
         LoginStep.hideOverlay, LoginStep.onAuthenticated]
      | LoginResponse.httpFailure m => [LoginStep.showErr m]
      | LoginResponse.networkFailure m => [LoginStep.showErr ("Connection failed: " ++ m)]

/-- Storage writes of a trace. -/
def isWriteStep (s : LoginStep) : Bool :=
  match s with
  | LoginStep.storeUser _ => true
  | LoginStep.storeToken _ => true
  | _ => false

/-- The storage writes of a trace, in order. -/
def writesOf (tr : List LoginStep) : List LoginStep := tr.filter isWriteStep

/-- Network requests of a trace. -/
def isFetchStep (s : LoginStep) : Bool :=
  match s with
  | LoginStep.fetchCall _ _ => true
  | _ => false

/-- Whether a trace issues a network call. -/
def hasFetch (tr : List LoginStep) : Bool := tr.any isFetchStep

-- SPECIFICATION-SIDE DEFINITIONS ------------------------------------------

/-- Specification-side definition, following the section 3 invariant of
the specification word for word: a session is considered present if and
only if the token field is non-empty.  Used to compare the createSession
contract of the specification with the implementation. -/
def specSessionPresent (st : StorageState) : Bool :=
  match st.token with
  | some t => if t = "" then false else true
  | none => false

/-- Whether a createSession outcome is a success. -/
def exceptIsOk (e : Except String AuthSession) : Bool :=
  match e with
  | Except.ok _ => true
  | Except.error _ => false

-- HELPER LEMMAS -----------------------------------------------------------

/-- The fallible readSession at the canonical non-throwing behavior of a
storage state agrees with the plain readSession. -/
theorem readSessionB_behaviorOf (st : StorageState) :
    readSessionB (behaviorOf st) = readSession st := by
  rcases st with ⟨tok, usr⟩
  cases tok with
  | none => rfl
  | some t =>
    by_cases ht : t = ""
    · simp [readSession, readSessionB, readSessionE, behaviorOf, ht]
    · cases usr with
      | none => simp [readSession, readSessionB, readSessionE, behaviorOf, ht]
      | some v =>
        cases v <;> simp [readSession, readSessionB, readSessionE, behaviorOf, ht]

-- CLAIM THEOREMS ----------------------------------------------------------

/-- C1 (counterexample): with the token field holding the non-empty
string abc and the user field holding the string not-json (which
JSON.parse rejects), getSessions returns the empty list, not exactly one
session with a placeholder identity as the claim states. -/
theorem c1_malformed_user_counterexample :
    getSessions ⟨some "abc", some (UserVal.notJson "not-json")⟩ = [] ∧
    (getSessions ⟨some "abc", some (UserVal.notJson "not-json")⟩).length ≠ 1 := by
  decide

/-- C1 (amended): for every non-empty token, the read paths do not throw
(readSession and getSessions are the caught, total functions); with the
user field absent they return exactly one session with the placeholder
identity, while with a user field that JSON.parse rejects readSession
returns null and getSessions returns the empty list. -/
theorem c1_read_paths_amended (t s : String) (ht : t ≠ "") :
    readSession ⟨some t, some (UserVal.notJson s)⟩ = none ∧
    getSessions ⟨some t, some (UserVal.notJson s)⟩ = [] ∧
    readSession ⟨some t, none⟩ = some (mkSession t placeholderUser) ∧
    getSessions ⟨some t, none⟩ = [mkSession t placeholderUser] := by
  have h1 : readSession ⟨some t, some (UserVal.notJson s)⟩ = none := by
    simp [readSession, ht]
  have h2 : readSession ⟨some t, none⟩ = some (mkSession t placeholderUser) := by
    simp [readSession, ht]
  exact ⟨h1, by simp [getSessions, h1], h2, by simp [getSessions, h2]⟩

/-- C1 (witness): the amended statement at token abc and user value
not-json. -/
theorem c1_read_paths_witness :
    ("abc" ≠ "") ∧
    (readSession ⟨some "abc", some (UserVal.notJson "not-json")⟩ = none ∧
     getSessions ⟨some "abc", some (UserVal.notJson "not-json")⟩ = [] ∧
     readSession ⟨some "abc", none⟩ = some (mkSession "abc" placeholderUser) ∧
     getSessions ⟨some "abc", none⟩ = [mkSession "abc" placeholderUser]) :=
  ⟨by decide, c1_read_paths_amended "abc" "not-json" (by decide)⟩

/-- C2 (code bug exhibit): invoking the gate show-overlay path twice in
succession without an intervening hide, starting from an empty
container, attaches two backdrop elements to the container, not exactly
one: showLoginOverlay constructs a fresh overlay on every call and keeps
no owned-instance guard. -/
theorem c2_double_show_attaches_two :
    afterTwoShows.2.container = [0, 1] ∧
    afterTwoShows.2.container.length ≠ 1 := by
  decide

/-- C3 (code bug exhibit): with the surface torn down while the exchange
is in flight (third argument true), a successful response still produces
the storage writes of the user and token fields and the UI steps: the
continuation after the await consults no disposed state, so a disposed
surface persists the session anyway. -/
theorem c3_disposed_flight_still_persists :
    handleLogin "a@x.com" "p" true (LoginResponse.success "tok1" ⟨"42", "a@x.com"⟩) =
      [LoginStep.fetchCall "a@x.com" "p", LoginStep.storeUser ⟨"42", "a@x.com"⟩,
       LoginStep.storeToken "tok1", LoginStep.hideOverlay, LoginStep.onAuthenticated] ∧
    writesOf (handleLogin "a@x.com" "p" true (LoginResponse.success "tok1" ⟨"42", "a@x.com"⟩)) ≠ [] := by
  decide

/-- C4 (counterexample): the canonical sign-out command does not remove
the token field first; its first step removes the user key. -/
theorem c4_order_counterexample :
    signOutCanonical ≠ [SignOutStep.removeTokenKey, SignOutStep.removeUserKey] ∧
    signOutCanonical.head? = some SignOutStep.removeUserKey := by
  decide

/-- C4 (amended): the canonical sign-out command (talemoAuth.contribution.ts)
removes the user field first and the token field second; the historical
variant (part_000) removes the token first and the user second, then
directly constructs and shows a fresh overlay. -/
theorem c4_sign_out_orders :
    signOutCanonical = [SignOutStep.removeUserKey, SignOutStep.removeTokenKey] ∧
    signOutVariant = [SignOutStep.removeTokenKey, SignOutStep.removeUserKey,
      SignOutStep.constructOverlay, SignOutStep.showOverlay] := by
  decide

/-- C5 (counterexample): on a successful exchange the first storage
write of the trace is the user field, not the token field. -/
theorem c5_write_order_counterexample :
    (writesOf (handleLogin "b@y.com" "q" false (LoginResponse.success "tokB" ⟨"7", "b@y.com"⟩))).head? =
      some (LoginStep.storeUser ⟨"7", "b@y.com"⟩) ∧
    (writesOf (handleLogin "b@y.com" "q" false (LoginResponse.success "tokB" ⟨"7", "b@y.com"⟩))).head? ≠
      some (LoginStep.storeToken "tokB") := by
  decide

/-- C5 (amended): on every successful remote login exchange (non-empty
trimmed email, non-empty password) the surface persists the user field
first and the token field second, then hides itself and invokes the
completion callback. -/
theorem c5_success_flow (email pw tok : String) (d : Bool) (u : StoredUser)
    (he : jsTrim email ≠ "") (hp : pw ≠ "") :
    handleLogin email pw d (LoginResponse.success tok u) =
      [LoginStep.fetchCall (jsTrim email) pw, LoginStep.storeUser u,
       LoginStep.storeToken tok, LoginStep.hideOverlay, LoginStep.onAuthenticated] := by
  simp [handleLogin, he, hp]

/-- C5 (witness): the amended success flow at a concrete submission. -/
theorem c5_success_flow_witness :
    (jsTrim "b@y.com" ≠ "" ∧ "q" ≠ "") ∧
    handleLogin "b@y.com" "q" false (LoginResponse.success "tokB" ⟨"7", "b@y.com"⟩) =
      [LoginStep.fetchCall (jsTrim "b@y.com") "q", LoginStep.storeUser ⟨"7", "b@y.com"⟩,
       LoginStep.storeToken "tokB", LoginStep.hideOverlay, LoginStep.onAuthenticated] :=
  ⟨⟨by decide, by decide⟩,
   c5_success_flow "b@y.com" "q" "tokB" false ⟨"7", "b@y.com"⟩ (by decide) (by decide)⟩

/-- C6 (counterexample): a whitespace-only password is empty after
trimming, yet the submission issues a network call: the source trims
only the email, and the raw one-space password passes validation. -/
theorem c6_whitespace_password_counterexample :
    jsTrim " " = "" ∧
    handleLogin "a@x.com" " " false (LoginResponse.httpFailure "bad") =
      [LoginStep.fetchCall "a@x.com" " ", LoginStep.showErr "bad"] ∧
    hasFetch (handleLogin "a@x.com" " " false (LoginResponse.httpFailure "bad")) = true := by
  decide

/-- C6 (amended): whenever the trimmed email is empty or the raw
password is the empty string, the surface issues no network call and
shows only the literal message Please enter your email and password. -/
theorem c6_validation (email pw : String) (d : Bool) (r : LoginResponse)
    (h : jsTrim email = "" ∨ pw = "") :
    handleLogin email pw d r = [LoginStep.showErr validationMessage] ∧
    hasFetch (handleLogin email pw d r) = false := by
  have he : handleLogin email pw d r = [LoginStep.showErr validationMessage] := by
    simp only [handleLogin]
    rw [if_pos h]
  exact ⟨he, by rw [he]; rfl⟩

/-- C6 (witness): the amended validation at an empty email. -/
theorem c6_validation_witness :
    (jsTrim "" = "" ∨ "p" = "") ∧
    (handleLogin "" "p" false (LoginResponse.networkFailure "x") =
       [LoginStep.showErr validationMessage] ∧
     hasFetch (handleLogin "" "p" false (LoginResponse.networkFailure "x")) = false) :=
  ⟨Or.inl (by decide), c6_validation "" "p" false (LoginResponse.networkFailure "x") (Or.inl (by decide))⟩

/-- C7 (counterexample): after an external token-field change into the
state with token abc (present and non-empty) and user value not-json,
the adapter handler emits the event with both added and removed absent,
not an added event, although the token became present. -/
theorem c7_external_change_counterexample :
    (StorageState.mk (some "abc") (some (UserVal.notJson "not-json"))).token = some "abc" ∧
    tokenChangeHandler ⟨some "abc", some (UserVal.notJson "not-json")⟩ =
      ⟨none, none⟩ := by
  decide

/-- C7 (amended): removeSession clears both fields and emits a removed
event carrying the pre-read session exactly when a session existed
before, and nothing otherwise; on an external token-field change the
adapter emits added with the freshly read session when readSession
yields one, and an event with both members absent otherwise (including
when the token is present but the user record is unparsable); an
external removal never carries a removed payload. -/
theorem c7_change_events (st : StorageState) :
    (∀ s, readSession st = some s →
      removeSession st = ([⟨none, some [s]⟩], ⟨none, none⟩)) ∧
    (readSession st = none → removeSession st = ([], ⟨none, none⟩)) ∧
    (∀ s, readSession st = some s → tokenChangeHandler st = ⟨some [s], none⟩) ∧
    (readSession st = none → tokenChangeHandler st = ⟨none, none⟩) ∧
    (tokenChangeHandler st).removed = none := by
  cases h : readSession st with
  | none => simp [removeSession, tokenChangeHandler, h]
  | some s => simp [removeSession, tokenChangeHandler, h]

/-- C7 (witness): the amended event behavior at a state with a readable
session and at the empty state. -/
theorem c7_change_events_witness :
    (tokenChangeHandler ⟨some "abc", none⟩ =
       ⟨some [mkSession "abc" placeholderUser], none⟩) ∧
    (removeSession ⟨none, none⟩ = ([], ⟨none, none⟩)) ∧
    (removeSession ⟨some "abc", none⟩ =
       ([⟨none, some [mkSession "abc" placeholderUser]⟩], ⟨none, none⟩)) :=
  ⟨(c7_change_events ⟨some "abc", none⟩).2.2.1 (mkSession "abc" placeholderUser) (by decide),
   (c7_change_events ⟨none, none⟩).2.1 (by decide),
   (c7_change_events ⟨some "abc", none⟩).1 (mkSession "abc" placeholderUser) (by decide)⟩

/-- C8 (confirmed): after storing the token abc and the user record with
id 1 and email a@x.com, getSessions returns exactly one session with id
talemo-1, accessToken abc, and account label a@x.com. -/
theorem c8_round_trip :
    getSessions ⟨some "abc", some (UserVal.json ⟨"1", "a@x.com"⟩)⟩ =
      [⟨"talemo-1", "abc", ⟨"1", "a@x.com"⟩, ["talemo"]⟩] ∧
    (getSessions ⟨some "abc", some (UserVal.json ⟨"1", "a@x.com"⟩)⟩).length = 1 := by
  decide

/-- C9 (counterexample): in the state with token abc and user value
not-json a session is present by the specification invariant (the token
field is non-empty), yet createSession fails with the propagated error. -/
theorem c9_failure_despite_token_counterexample :
    specSessionPresent ⟨some "abc", some (UserVal.notJson "zzz")⟩ = true ∧
    createSession ⟨some "abc", some (UserVal.notJson "zzz")⟩ =
      Except.error noSessionMessage :=
  ⟨rfl, rfl⟩

/-- C9 (amended): createSession succeeds exactly when readSession yields
a session (so it also fails, with an explicit propagated error, when the
token is present but the stored user record is unparsable), and when
readSession yields a session it returns exactly that session; its body
performs no login exchange and no storage write. -/
theorem c9_create_session (st : StorageState) :
    (exceptIsOk (createSession st) = (readSession st).isSome) ∧
    (∀ s, readSession st = some s → createSession st = Except.ok s) := by
  cases h : readSession st with
  | none => simp [createSession, exceptIsOk, h]
  | some s => simp [createSession, exceptIsOk, h]

/-- C9 (witness): the amended createSession contract at a state with a
readable session. -/
theorem c9_create_session_witness :
    createSession ⟨some "abc", none⟩ = Except.ok (mkSession "abc" placeholderUser) :=
  (c9_create_session ⟨some "abc", none⟩).2 (mkSession "abc" placeholderUser) (by decide)

/-- C10 (confirmed): for every storage behavior, including reads,
removes, or event callbacks that throw, removeSession resolves: the
surrounding catch swallows every failure, so the caller always observes
success. -/
theorem c10_remove_session_resolves (b : StorageBehavior) :
    removeSessionCaught b = Except.ok () := by
  unfold removeSessionCaught
  split <;> rfl

/-- C10 (witness): removeSession resolves at a behavior whose token
removal throws. -/
theorem c10_remove_session_resolves_witness :
    removeSessionCaught
      ⟨Except.ok (some "t"), Except.ok none, Except.error "boom",
       Except.ok (), Except.ok ()⟩ = Except.ok () :=
  c10_remove_session_resolves
    ⟨Except.ok (some "t"), Except.ok none, Except.error "boom",
     Except.ok (), Except.ok ()⟩
